import Mathlib

/-!
Verification of the FreeRTOS C++ wrapper toolkit: a shallow embedding of the
three components (Guarded resource, EventGroup, Queue) and of the platform
kernel primitives they call, with theorems settling the specification claims.

The wrapper code itself (Guarded.h, EvenGroupCpp.h, the queue header) is
embedded directly from the source.  The underlying FreeRTOS kernel primitives
(xEventGroupWaitBits, xQueueSend, ...) are an external platform layer that the
repository calls but does not implement; they are modelled from the spec and
the documented FreeRTOS semantics, each marked in its doc comment.  Blocking
behaviour is modelled atomically: each blocking primitive is a function of the
bit/queue state at the instant the wait decides (condition satisfied, or
timeout expiry), so that the satisfied path and the timeout path are both
covered without a scheduler model.
-/

namespace FRW

/-! ## Platform layer: event group kernel primitives -/

/-- Modelled from the spec: the platform wait condition of
xEventGroupWaitBits.  With waitAll set, every bit of the mask must be set in
the state; otherwise at least one bit of the mask must be set. -/
def eventWaitSatisfied (state mask : Nat) (waitAll : Bool) : Bool :=
  if waitAll then Nat.land state mask == mask else Nat.land state mask != 0

/-- Modelled from the spec: the platform primitive xEventGroupWaitBits, which
the repository calls but does not implement.  Arguments follow the kernel
order (bits to wait for, clear-on-exit flag, wait-for-all flag); the given
state is the bitmask at the instant the wait decides.  Returns the value
handed back to the caller and the new bitmask state: on satisfaction the
observed value is returned and, when clear-on-exit is set, the bits of the
requested mask are cleared; on timeout nothing is cleared. -/
def xEventGroupWaitBits (state uxBitsToWaitFor : Nat)
    (xClearOnExit xWaitForAllBits : Bool) : Nat × Nat :=
  if eventWaitSatisfied state uxBitsToWaitFor xWaitForAllBits then
    (state,
      if xClearOnExit then Nat.ldiff state uxBitsToWaitFor else state)
  else
    (state, state)

/-- Modelled from the spec: the platform primitive xEventGroupSync.  It
atomically sets the bits to set; if afterwards all bits to wait for are set,
it returns that observed value, clears the waited-for bits and reports
success; on timeout it returns the state as is (the bits set by the call
remain set, no rollback) and reports failure.  The result triple is
(returned value, new bitmask state, success flag). -/
def xEventGroupSync (state uxBitsToSet uxBitsToWaitFor : Nat) :
    Nat × Nat × Bool :=
  let s1 := Nat.lor state uxBitsToSet
  if Nat.land s1 uxBitsToWaitFor == uxBitsToWaitFor then
    (s1, Nat.ldiff s1 uxBitsToWaitFor, true)
  else
    (s1, s1, false)

/-! ## EventGroup wrapper (EvenGroupCpp.h) -/

/-- The wrapper state of class EventGroup: the kernel handle (none models a
null handle) and the ownership flag. -/
structure EventGroup where
  handle : Option Nat
  owned : Bool
deriving Repr, DecidableEq

/-- The constructor EventGroup(EventGroupHandle_t existing, bool
takeOwnership): wraps an already existing handle, recording ownership as
requested. -/
def EventGroup.wrapExisting (existing : Nat) (takeOwnership : Bool) :
    EventGroup :=
  { handle := some existing, owned := takeOwnership }

/-- EventGroup::destroy(): deletes the kernel object only when the wrapper
owns a non-null handle, and then nulls the handle.  Returns the new wrapper
state and the list of handles passed to vEventGroupDelete. -/
def EventGroup.destroy (g : EventGroup) : EventGroup × List Nat :=
  match g.handle, g.owned with
  | some h, true => ({ handle := none, owned := g.owned }, [h])
  | _, _ => (g, [])

/-- The destructor of EventGroup: it calls destroy(); these are the handles
it releases. -/
def EventGroup.dtorDeletes (g : EventGroup) : List Nat :=
  (EventGroup.destroy g).2

/-- EventGroup::isValid(). -/
def EventGroup.isValid (g : EventGroup) : Bool :=
  g.handle.isSome

/-- The move constructor of EventGroup: the new object takes the handle and
the ownership flag; the moved-from object is left with a null handle and
owned = false. Result: (new object, moved-from source). -/
def EventGroup.moveCtor (src : EventGroup) : EventGroup × EventGroup :=
  ({ handle := src.handle, owned := src.owned },
   { handle := none, owned := false })

/-- The move assignment of EventGroup for distinct objects: the destination
first runs destroy() on itself, then takes over the source fields; the source
is left null and unowned.  Result: (new destination, new source, handles
released by the destroy call). -/
def EventGroup.moveAssign (dest src : EventGroup) :
    EventGroup × EventGroup × List Nat :=
  let d := EventGroup.destroy dest
  ({ handle := src.handle, owned := src.owned },
   { handle := none, owned := false },
   d.2)

/-- The move assignment of EventGroup in the self-assignment case: the guard
(this != &other) makes it a no-op, releasing nothing. -/
def EventGroup.moveAssignSelf (g : EventGroup) : EventGroup × List Nat :=
  (g, [])

/-- The wrapper method EventGroup::waitBits(bits, waitAll, clearOnExit,
timeoutMs): it forwards to the kernel primitive with the clear-on-exit flag
third and the wait-for-all flag fourth, as the kernel expects. -/
def EventGroup.waitBits (state bits : Nat) (waitAll clearOnExit : Bool) :
    Nat × Nat :=
  xEventGroupWaitBits state bits clearOnExit waitAll

/-- The wrapper method EventGroup::sync(bitsToSet, bitsToWaitFor, timeoutMs):
it forwards to the kernel sync primitive. -/
def EventGroup.sync (state bitsToSet bitsToWaitFor : Nat) :
    Nat × Nat × Bool :=
  xEventGroupSync state bitsToSet bitsToWaitFor

/-- EventGroup::MaxUserBits = sizeof(EventBits_t) * 8 - 8, with a 32-bit
EventBits_t. -/
def EventGroup.MaxUserBits : Nat := 32 - 8

/-- The runtime variant EventGroup::getBit(unsigned n): configASSERT enforces
n < MaxUserBits (modelled as returning none on assertion failure), then the
single-bit mask 1 shifted left by n is returned. -/
def EventGroup.getBit (n : Nat) : Option Nat :=
  if n < EventGroup.MaxUserBits then some (Nat.shiftLeft 1 n) else none

/-- The compile-time variant EventGroup::getBit with template parameter N:
the static assertion rejects N not below MaxUserBits (modelled as returning
none, i.e. the program does not compile), otherwise the same single-bit mask
is produced. -/
def EventGroup.getBitTemplate (N : Nat) : Option Nat :=
  if N < EventGroup.MaxUserBits then some (Nat.shiftLeft 1 N) else none

/-! ## Platform layer: queue kernel primitives -/

/-- The kernel state of one queue: its fixed capacity and the buffered items
in front-to-back order. -/
structure QueueK (α : Type) where
  capacity : Nat
  items : List α
deriving Repr, DecidableEq

/-- The insertion position of the generic kernel send. -/
inductive SendPos where
  | back
  | front
deriving Repr, DecidableEq

/-- Modelled from the spec: the platform primitive xQueueGenericSend, to
which both xQueueSend and xQueueSendToBack forward with the back position and
xQueueSendToFront forwards with the front position.  The given queue is the
state at the instant the send decides: with a free slot the item is inserted
and the call succeeds; with a full queue the timeout has elapsed and the call
fails leaving the queue unchanged. -/
def xQueueGenericSend (q : QueueK α) (item : α) (ticks : Nat)
    (pos : SendPos) : QueueK α × Bool :=
  if q.items.length < q.capacity then
    match pos with
    | SendPos.back => ({ q with items := q.items ++ [item] }, true)
    | SendPos.front => ({ q with items := item :: q.items }, true)
  else
    (q, false)

/-- Modelled from the spec: xQueueSend forwards to the generic send at the
back position. -/
def xQueueSend (q : QueueK α) (item : α) (ticks : Nat) : QueueK α × Bool :=
  xQueueGenericSend q item ticks SendPos.back

/-- Modelled from the spec: xQueueSendToBack forwards to the generic send at
the back position. -/
def xQueueSendToBack (q : QueueK α) (item : α) (ticks : Nat) :
    QueueK α × Bool :=
  xQueueGenericSend q item ticks SendPos.back

/-- Modelled from the spec: xQueueSendToFront forwards to the generic send at
the front position. -/
def xQueueSendToFront (q : QueueK α) (item : α) (ticks : Nat) :
    QueueK α × Bool :=
  xQueueGenericSend q item ticks SendPos.front

/-- Modelled from the spec: the interrupt-context generic send; it never
blocks, failing at once on a full queue. -/
def xQueueGenericSendFromISR (q : QueueK α) (item : α) (pos : SendPos) :
    QueueK α × Bool :=
  if q.items.length < q.capacity then
    match pos with
    | SendPos.back => ({ q with items := q.items ++ [item] }, true)
    | SendPos.front => ({ q with items := item :: q.items }, true)
  else
    (q, false)

/-- Modelled from the spec: xQueueSendFromISR forwards to the interrupt
generic send at the back position. -/
def xQueueSendFromISR (q : QueueK α) (item : α) : QueueK α × Bool :=
  xQueueGenericSendFromISR q item SendPos.back

/-- Modelled from the spec: xQueueSendToBackFromISR forwards to the interrupt
generic send at the back position. -/
def xQueueSendToBackFromISR (q : QueueK α) (item : α) : QueueK α × Bool :=
  xQueueGenericSendFromISR q item SendPos.back

/-- Modelled from the spec: the platform primitive xQueueOverwrite, defined
for single-slot queues.  With the slot free the item is stored; with the slot
occupied the stored item is replaced.  Either way the call succeeds. -/
def xQueueOverwrite (q : QueueK α) (item : α) : QueueK α × Bool :=
  if q.items.isEmpty then
    ({ q with items := [item] }, true)
  else
    ({ q with items := [item] }, true)

/-- Modelled from the spec: the platform primitive xQueueReceive.  The given
queue is the state at the instant the receive decides: a non-empty queue
yields its front item and removes it; an empty queue means the timeout has
elapsed and the call fails leaving the queue unchanged. -/
def xQueueReceive (q : QueueK α) (ticks : Nat) : QueueK α × Option α :=
  match q.items with
  | [] => (q, none)
  | x :: rest => ({ q with items := rest }, some x)

/-- Modelled from the spec: the platform tick rate used by pdMS_TO_TICKS. -/
def configTICK_RATE_HZ : Nat := 1000

/-- Modelled from the spec: the platform millisecond-to-tick conversion
pdMS_TO_TICKS. -/
def pdMS_TO_TICKS (ms : Nat) : Nat :=
  ms * configTICK_RATE_HZ / 1000

/-! ## Queue wrapper (the unnamed queue header) -/

/-- The wrapper state of class QueueBase: the kernel handle stored at
construction.  The public constructor QueueBase(QueueHandle_t handle) stores
an externally supplied handle unchanged. -/
structure QueueBase where
  handle : Nat
deriving Repr, DecidableEq

/-- The destructor of QueueBase: it calls vQueueDelete(handle)
unconditionally; these are the handles it releases. -/
def QueueBase.dtorDeletes (q : QueueBase) : List Nat :=
  [q.handle]

/-- QueueTypeBase::send(item, ms): forwards to xQueueSend with the converted
timeout, reporting success as a Bool. -/
def QueueTypeBase.send (q : QueueK α) (item : α) (ms : Nat) :
    QueueK α × Bool :=
  xQueueSend q item (pdMS_TO_TICKS ms)

/-- QueueTypeBase::sendToBack(item, ms): forwards to xQueueSendToBack with
the converted timeout. -/
def QueueTypeBase.sendToBack (q : QueueK α) (item : α) (ms : Nat) :
    QueueK α × Bool :=
  xQueueSendToBack q item (pdMS_TO_TICKS ms)

/-- QueueTypeBase::sendToFront(item, ms): forwards to xQueueSendToFront with
the converted timeout. -/
def QueueTypeBase.sendToFront (q : QueueK α) (item : α) (ms : Nat) :
    QueueK α × Bool :=
  xQueueSendToFront q item (pdMS_TO_TICKS ms)

/-- QueueTypeBase::receive(item, ms): forwards to xQueueReceive with the
converted timeout; the received item is modelled as the Option component. -/
def QueueTypeBase.receive (q : QueueK α) (ms : Nat) :
    QueueK α × Option α :=
  xQueueReceive q (pdMS_TO_TICKS ms)

/-- QueueTypeBase::overwrite(item): forwards to xQueueOverwrite. -/
def QueueTypeBase.overwrite (q : QueueK α) (item : α) : QueueK α × Bool :=
  xQueueOverwrite q item

/-- QueueTypeBase::sendFromISR(item, woken): forwards to xQueueSendFromISR. -/
def QueueTypeBase.sendFromISR (q : QueueK α) (item : α) : QueueK α × Bool :=
  xQueueSendFromISR q item

/-- QueueTypeBase::sendToBackFromISR(item, woken): forwards to
xQueueSendToBackFromISR. -/
def QueueTypeBase.sendToBackFromISR (q : QueueK α) (item : α) :
    QueueK α × Bool :=
  xQueueSendToBackFromISR q item

/-- The constructor Queue(length, name): it calls xQueueCreate; on a null
handle it throws std::runtime_error("Failed to create queue"), otherwise the
object is built over the created queue.  The create result is passed in as
an Option. -/
def Queue.ctor (createResult : Option (QueueK α)) :
    Except String (QueueK α) :=
  match createResult with
  | none => Except.error "Failed to create queue"
  | some q => Except.ok q

/-! ## Guarded wrapper (Guarded.h) -/

/-- The wrapper state of Guarded after construction: the mutex handle as the
platform create call returned it (none models a null handle). -/
structure GuardedState where
  mutex : Option Nat
deriving Repr, DecidableEq

/-- The constructor Guarded(): it stores the result of
xSemaphoreCreateMutex() without any check (the assert exists only as a
comment in the source).  The Bool component records whether construction
aborted; the source never aborts. -/
def Guarded.ctor (createResult : Option Nat) : GuardedState × Bool :=
  ({ mutex := createResult }, false)

/-- The state of one Guarded::Access token: the data pointer and the mutex
handle, either of which the move operations may null. -/
structure Access where
  ptr : Option Nat
  mtx : Option Nat
deriving Repr, DecidableEq

/-- The destructor of Access: it gives the mutex exactly when the token still
holds one; these are the handles passed to xSemaphoreGive. -/
def Access.dtorGives (a : Access) : List Nat :=
  match a.mtx with
  | some m => [m]
  | none => []

/-- The move constructor of Access: the new token takes both fields, the
moved-from token is left with null pointer and null mutex; no give happens.
Result: (new token, moved-from source). -/
def Access.moveCtor (src : Access) : Access × Access :=
  ({ ptr := src.ptr, mtx := src.mtx }, { ptr := none, mtx := none })

/-- The move assignment of Access for distinct tokens: the destination first
gives its own mutex if it holds one, then takes over the source fields; the
source is left null.  Result: (new destination, new source, handles given by
the assignment itself). -/
def Access.moveAssign (dest src : Access) : Access × Access × List Nat :=
  let gives : List Nat :=
    match dest.mtx with
    | some m => [m]
    | none => []
  ({ ptr := src.ptr, mtx := src.mtx }, { ptr := none, mtx := none }, gives)

/-- The move assignment of Access in the self-assignment case: the guard
(this != &other) makes it a no-op, giving nothing. -/
def Access.moveAssignSelf (a : Access) : Access × List Nat :=
  (a, [])

/-- Guarded::operator(): takes the mutex and returns an Access token bound to
the data and the mutex; the token returned holds the lock. -/
def Guarded.acquire (dataPtr m : Nat) : Access :=
  { ptr := some dataPtr, mtx := some m }

/-! ## Theorems -/

/-- C1: For every Guarded Access token, the lock release (give) runs exactly
once.  A freshly acquired token releases its mutex exactly once on
destruction; after a move construction the moved-from token releases nothing
on destruction and the new token releases exactly what the original would
have; a move assignment itself gives exactly the lock the destination was
holding, leaves the source releasing nothing, and over the assignment plus
the destruction of both resulting tokens each held lock is given exactly
once. -/
theorem guarded_access_gives_exactly_once :
    (∀ p m : Nat, Access.dtorGives (Guarded.acquire p m) = [m])
    ∧ (∀ a : Access,
        Access.dtorGives (Access.moveCtor a).2 = []
        ∧ Access.dtorGives (Access.moveCtor a).1 = Access.dtorGives a)
    ∧ (∀ dest src : Access,
        (Access.moveAssign dest src).2.2 = Access.dtorGives dest
        ∧ Access.dtorGives (Access.moveAssign dest src).2.1 = []
        ∧ (Access.moveAssign dest src).1.mtx = src.mtx
        ∧ (Access.moveAssign dest src).2.2
            ++ Access.dtorGives (Access.moveAssign dest src).1
            ++ Access.dtorGives (Access.moveAssign dest src).2.1
          = Access.dtorGives dest ++ Access.dtorGives src) := by
  refine ⟨fun p m => rfl, fun a => ⟨rfl, ?_⟩, fun dest src => ⟨?_, rfl, rfl, ?_⟩⟩
  · cases a with
    | mk p mx => cases mx <;> rfl
  · cases dest with
    | mk p mx => cases mx <;> rfl
  · cases dest with
    | mk p mx =>
      cases src with
      | mk q my => cases mx <;> cases my <;> rfl

/-- C2 counterexample: a QueueBase built over an existing kernel handle
(here handle 5) does release the underlying kernel object on destruction,
contradicting the claim that such destruction releases nothing. -/
theorem queuebase_external_handle_deleted :
    QueueBase.dtorDeletes { handle := 5 } ≠ [] := by
  decide

/-- C2 amended: an EventGroup constructed over an existing handle with
takeOwnership = false releases nothing on destruction; a QueueBase, however,
always deletes its handle on destruction, even when it was built over an
externally supplied handle. -/
theorem nonowning_eventgroup_destruction_releases_nothing :
    (∀ h : Nat,
      EventGroup.dtorDeletes (EventGroup.wrapExisting h false) = [])
    ∧ (∀ q : QueueBase, QueueBase.dtorDeletes q = [q.handle]) := by
  exact ⟨fun h => rfl, fun q => rfl⟩

/-- C3: when the platform mutex create call returns null, the Guarded
constructor nevertheless completes normally: the abort flag is false and the
object is left with a null mutex, operating without a lock.  This contradicts
the claim (and the spec), which require a fatal assert/abort; the source only
carries the assert as a comment. -/
theorem guarded_ctor_completes_on_null_mutex :
    Guarded.ctor none = ({ mutex := none }, false) := by
  rfl

/-- C4: the Queue constructor reports a failed kernel queue creation to the
caller as a thrown runtime error, and on success yields an object over the
created queue. -/
theorem queue_ctor_reports_failure :
    (Queue.ctor (α := Nat) none = Except.error "Failed to create queue")
    ∧ (∀ q : QueueK Nat, Queue.ctor (some q) = Except.ok q) := by
  exact ⟨rfl, fun q => rfl⟩

/-- C5: for every call to waitBits, when the wait condition (all mask bits
for waitAll, at least one for not waitAll) is satisfied the returned value is
the bitmask observed at that moment, and with clearOnExit set exactly the
bits of the requested mask are cleared in the new state (every other bit is
untouched), while without clearOnExit the state is unchanged; when the call
times out with the condition unsatisfied, nothing is cleared and the bitmask
observed at timeout is returned. -/
theorem waitBits_clears_exactly_mask_on_satisfaction
    (state bits : Nat) (waitAll clearOnExit : Bool) :
    (eventWaitSatisfied state bits waitAll = true →
      (EventGroup.waitBits state bits waitAll clearOnExit).1 = state
      ∧ (clearOnExit = true →
          ∀ i, ((EventGroup.waitBits state bits waitAll clearOnExit).2).testBit i
            = (state.testBit i && !(bits.testBit i)))
      ∧ (clearOnExit = false →
          (EventGroup.waitBits state bits waitAll clearOnExit).2 = state))
    ∧ (eventWaitSatisfied state bits waitAll = false →
      (EventGroup.waitBits state bits waitAll clearOnExit).1 = state
      ∧ (EventGroup.waitBits state bits waitAll clearOnExit).2 = state) := by
  unfold EventGroup.waitBits xEventGroupWaitBits
  constructor
  · intro hsat
    rw [hsat]
    refine ⟨rfl, ?_, ?_⟩
    · intro hclear
      subst hclear
      intro i
      simp [Nat.testBit_ldiff]
    · intro hclear
      subst hclear
      rfl
  · intro hunsat
    rw [hunsat]
    exact ⟨rfl, rfl⟩

/-- C5 witness: with bitmask state 3, mask 1, waitAll and clearOnExit, the
condition is satisfied, the observed value 3 is returned and clearing is
exactly by the mask; with state 0 the same call is unsatisfied and leaves the
state untouched. -/
theorem waitBits_clears_exactly_mask_on_satisfaction_instance :
    eventWaitSatisfied 3 1 true = true
    ∧ (EventGroup.waitBits 3 1 true true).1 = 3
    ∧ ((EventGroup.waitBits 3 1 true true).2).testBit 0
        = (Nat.testBit 3 0 && !(Nat.testBit 1 0))
    ∧ eventWaitSatisfied 0 1 true = false
    ∧ (EventGroup.waitBits 0 1 true true).2 = 0 :=
  ⟨by decide,
   ((waitBits_clears_exactly_mask_on_satisfaction 3 1 true true).1
     (by decide)).1,
   (((waitBits_clears_exactly_mask_on_satisfaction 3 1 true true).1
     (by decide)).2.1 rfl) 0,
   by decide,
   ((waitBits_clears_exactly_mask_on_satisfaction 0 1 true true).2
     (by decide)).2⟩

/-- C6: for every call to sync, on success the returned value is the bitmask
observed at satisfaction (the prior state with bitsToSet set), the new state
has exactly the bits of bitsToWaitFor cleared and every other bit preserved;
on timeout the bits set by this call remain set in the resulting state — there
is no rollback — and nothing is cleared. -/
theorem sync_clears_waited_bits_on_success_no_rollback_on_timeout
    (state bitsToSet bitsToWaitFor : Nat) :
    ((EventGroup.sync state bitsToSet bitsToWaitFor).2.2 = true →
      (EventGroup.sync state bitsToSet bitsToWaitFor).1
        = Nat.lor state bitsToSet
      ∧ ∀ i, ((EventGroup.sync state bitsToSet bitsToWaitFor).2.1).testBit i
          = (((Nat.lor state bitsToSet).testBit i)
              && !(bitsToWaitFor.testBit i)))
    ∧ ((EventGroup.sync state bitsToSet bitsToWaitFor).2.2 = false →
      (EventGroup.sync state bitsToSet bitsToWaitFor).2.1
        = Nat.lor state bitsToSet
      ∧ ∀ i, bitsToSet.testBit i = true →
          ((EventGroup.sync state bitsToSet bitsToWaitFor).2.1).testBit i
            = true) := by
  have hdef : EventGroup.sync state bitsToSet bitsToWaitFor =
      if Nat.land (Nat.lor state bitsToSet) bitsToWaitFor == bitsToWaitFor
      then
        (Nat.lor state bitsToSet,
         Nat.ldiff (Nat.lor state bitsToSet) bitsToWaitFor, true)
      else
        (Nat.lor state bitsToSet, Nat.lor state bitsToSet, false) := rfl
  by_cases hc :
      (Nat.land (Nat.lor state bitsToSet) bitsToWaitFor == bitsToWaitFor)
        = true
  · rw [hdef, if_pos hc]
    constructor
    · intro hsucc
      exact ⟨rfl, fun i => Nat.testBit_ldiff _ _ i⟩
    · intro hfail
      exact absurd hfail (by simp)
  · rw [hdef, if_neg hc]
    constructor
    · intro hsucc
      exact absurd hsucc (by simp)
    · intro hfail
      refine ⟨rfl, fun i hi => ?_⟩
      have h2 : Nat.lor state bitsToSet = state ||| bitsToSet := rfl
      rw [h2, Nat.testBit_lor, hi, Bool.or_true]

/-- C6 witness: with state 0, setting bit 0 while waiting for bit 0 alone
succeeds, returns the observed value 1 and clears the waited bit; setting
bit 0 while waiting for bits 0 and 1 times out and bit 0 stays set in the
resulting state. -/
theorem sync_clears_waited_bits_on_success_no_rollback_instance :
    (EventGroup.sync 0 1 1).2.2 = true
    ∧ (EventGroup.sync 0 1 1).1 = Nat.lor 0 1
    ∧ ((EventGroup.sync 0 1 1).2.1).testBit 0
        = (((Nat.lor 0 1).testBit 0) && !((1 : Nat).testBit 0))
    ∧ (EventGroup.sync 0 1 3).2.2 = false
    ∧ ((EventGroup.sync 0 1 3).2.1).testBit 0 = true :=
  ⟨by decide,
   ((sync_clears_waited_bits_on_success_no_rollback_on_timeout 0 1 1).1
     (by decide)).1,
   (((sync_clears_waited_bits_on_success_no_rollback_on_timeout 0 1 1).1
     (by decide)).2) 0,
   by decide,
   (((sync_clears_waited_bits_on_success_no_rollback_on_timeout 0 1 3).2
     (by decide)).2) 0 (by decide)⟩

/-- C7: the reserved boundary MaxUserBits is 24 (the 32-bit width minus 8);
for every n below it, getBit(n) passes its assertion and returns the
single-bit mask whose only set bit is bit n; for every n at or above it the
assertion rejects the call; the compile-time template variant accepts and
rejects the same indices, with the same value. -/
theorem getBit_bounds_checked_single_bit (n : Nat) :
    EventGroup.MaxUserBits = 24
    ∧ (n < EventGroup.MaxUserBits →
        EventGroup.getBit n = some (Nat.shiftLeft 1 n)
        ∧ ∀ i, (Nat.shiftLeft 1 n).testBit i = decide (n = i))
    ∧ (EventGroup.MaxUserBits ≤ n → EventGroup.getBit n = none)
    ∧ EventGroup.getBitTemplate n = EventGroup.getBit n := by
  refine ⟨rfl, ?_, ?_, rfl⟩
  · intro hlt
    refine ⟨?_, ?_⟩
    · unfold EventGroup.getBit
      rw [if_pos hlt]
    · intro i
      have h1 : Nat.shiftLeft 1 n = 2 ^ n := Nat.one_shiftLeft n
      rw [h1, Nat.testBit_two_pow]
  · intro hge
    unfold EventGroup.getBit
    rw [if_neg (Nat.not_lt.mpr hge)]

/-- C7 witness: index 3 is accepted and yields the mask with exactly bit 3
set; index 30 is rejected by the assertion, and the template variant agrees
at both. -/
theorem getBit_bounds_checked_single_bit_instance :
    (3 < EventGroup.MaxUserBits
      ∧ EventGroup.getBit 3 = some (Nat.shiftLeft 1 3)
      ∧ (Nat.shiftLeft 1 3).testBit 3 = decide ((3 : Nat) = 3)
      ∧ (Nat.shiftLeft 1 3).testBit 0 = decide ((3 : Nat) = 0))
    ∧ (EventGroup.MaxUserBits ≤ 30 ∧ EventGroup.getBit 30 = none)
    ∧ EventGroup.getBitTemplate 30 = EventGroup.getBit 30 :=
  ⟨⟨by decide,
    ((getBit_bounds_checked_single_bit 3).2.1 (by decide)).1,
    (((getBit_bounds_checked_single_bit 3).2.1 (by decide)).2) 3,
    (((getBit_bounds_checked_single_bit 3).2.1 (by decide)).2) 0⟩,
   ⟨by decide, (getBit_bounds_checked_single_bit 30).2.2.1 (by decide)⟩,
   (getBit_bounds_checked_single_bit 30).2.2.2⟩

/-- C8: on a single-slot queue, overwrite succeeds regardless of whether the
slot was occupied, and a subsequent receive yields the item passed to
overwrite — never any distinct value that occupied the slot before. -/
theorem overwrite_single_slot_receive_yields_new_item
    {α : Type} (q : QueueK α) (hcap : q.capacity = 1) (item : α) :
    (QueueTypeBase.overwrite q item).2 = true
    ∧ (QueueTypeBase.receive (QueueTypeBase.overwrite q item).1 0).2
        = some item
    ∧ (∀ prev : α, prev ≠ item →
        (QueueTypeBase.receive (QueueTypeBase.overwrite q item).1 0).2
          ≠ some prev) := by
  have hov : (QueueTypeBase.overwrite q item)
      = ({ q with items := [item] }, true) := by
    unfold QueueTypeBase.overwrite xQueueOverwrite
    by_cases hq : q.items.isEmpty = true
    · rw [if_pos hq]
    · rw [if_neg hq]
  refine ⟨by rw [hov], ?_, ?_⟩
  · rw [hov]
    rfl
  · intro prev hne hsome
    rw [hov] at hsome
    have : item = prev := by
      injection hsome
    exact hne this.symm

/-- C8 witness: a single-slot queue whose slot holds 7 accepts overwrite
with 42, and the subsequent receive yields 42, not the prior 7. -/
theorem overwrite_single_slot_receive_yields_new_item_instance :
    (QueueK.mk 1 [7] : QueueK Nat).capacity = 1
    ∧ (QueueTypeBase.overwrite (QueueK.mk 1 [7] : QueueK Nat) 42).2 = true
    ∧ (QueueTypeBase.receive
        (QueueTypeBase.overwrite (QueueK.mk 1 [7] : QueueK Nat) 42).1 0).2
        = some 42
    ∧ (QueueTypeBase.receive
        (QueueTypeBase.overwrite (QueueK.mk 1 [7] : QueueK Nat) 42).1 0).2
        ≠ some 7 :=
  ⟨rfl,
   (overwrite_single_slot_receive_yields_new_item
     (QueueK.mk 1 [7]) rfl 42).1,
   (overwrite_single_slot_receive_yields_new_item
     (QueueK.mk 1 [7]) rfl 42).2.1,
   (overwrite_single_slot_receive_yields_new_item
     (QueueK.mk 1 [7]) rfl 42).2.2 7 (by decide)⟩

/-- C9: send and sendToBack are behaviorally identical on every queue state,
item and timeout, as are sendFromISR and sendToBackFromISR; both append at
the back: a successful send leaves the prior items followed by the new item
and keeps the capacity, and a failed send leaves the queue unchanged. -/
theorem send_equals_sendToBack :
    (∀ (α : Type) (q : QueueK α) (item : α) (ms : Nat),
      QueueTypeBase.send q item ms = QueueTypeBase.sendToBack q item ms)
    ∧ (∀ (α : Type) (q : QueueK α) (item : α),
      QueueTypeBase.sendFromISR q item
        = QueueTypeBase.sendToBackFromISR q item)
    ∧ (∀ (α : Type) (q : QueueK α) (item : α) (ms : Nat),
      ((QueueTypeBase.send q item ms).2 = true →
        ((QueueTypeBase.send q item ms).1).items = q.items ++ [item]
        ∧ ((QueueTypeBase.send q item ms).1).capacity = q.capacity)
      ∧ ((QueueTypeBase.send q item ms).2 = false →
        (QueueTypeBase.send q item ms).1 = q)) := by
  refine ⟨fun α q item ms => rfl, fun α q item => rfl,
    fun α q item ms => ?_⟩
  unfold QueueTypeBase.send xQueueSend xQueueGenericSend
  by_cases hlt : q.items.length < q.capacity
  · rw [if_pos hlt]
    exact ⟨fun hs => ⟨rfl, rfl⟩, fun hf => absurd hf (by simp)⟩
  · rw [if_neg hlt]
    exact ⟨fun hs => absurd hs (by simp), fun hf => rfl⟩

/-- C9 witness: on a capacity-2 queue holding [1], send and sendToBack agree,
a successful send of 9 appends it at the back, and on a full capacity-1
queue the failing send leaves the queue unchanged. -/
theorem send_equals_sendToBack_instance :
    QueueTypeBase.send (QueueK.mk 2 [1] : QueueK Nat) 9 0
      = QueueTypeBase.sendToBack (QueueK.mk 2 [1] : QueueK Nat) 9 0
    ∧ ((QueueTypeBase.send (QueueK.mk 2 [1] : QueueK Nat) 9 0).1).items
        = [1] ++ [9]
    ∧ (QueueTypeBase.send (QueueK.mk 1 [5] : QueueK Nat) 9 0).1
        = QueueK.mk 1 [5] :=
  ⟨send_equals_sendToBack.1 Nat (QueueK.mk 2 [1]) 9 0,
   ((send_equals_sendToBack.2.2 Nat (QueueK.mk 2 [1]) 9 0).1
     (by decide)).1,
   (send_equals_sendToBack.2.2 Nat (QueueK.mk 1 [5]) 9 0).2 (by decide)⟩

/-- C10: a moved-from EventGroup (after move construction or the
non-self move assignment) has a null handle and owned = false, so its
destructor releases nothing and isValid is false on it; the move assignment
first releases exactly what destroying the destination releases, and the new
destination takes the source handle and ownership; self-assignment is a
no-op that releases nothing. -/
theorem eventgroup_moved_from_is_inert :
    (∀ src : EventGroup,
      (EventGroup.moveCtor src).1
          = { handle := src.handle, owned := src.owned }
      ∧ (EventGroup.moveCtor src).2 = { handle := none, owned := false })
    ∧ EventGroup.dtorDeletes { handle := none, owned := false } = []
    ∧ EventGroup.isValid { handle := none, owned := false } = false
    ∧ (∀ dest src : EventGroup,
        (EventGroup.moveAssign dest src).1
            = { handle := src.handle, owned := src.owned }
        ∧ (EventGroup.moveAssign dest src).2.1
            = { handle := none, owned := false }
        ∧ (EventGroup.moveAssign dest src).2.2
            = EventGroup.dtorDeletes dest)
    ∧ (∀ g : EventGroup, EventGroup.moveAssignSelf g = (g, [])) := by
  exact ⟨fun src => ⟨rfl, rfl⟩, rfl, rfl,
    fun dest src => ⟨rfl, rfl, rfl⟩, fun g => rfl⟩

end FRW
